import Mathlib

/-!
Shallow embedding of the Tally-style accounting report engine
(`trial_balance_wizard.py`, `profit_loss_wizard.py`, `balance_sheet_wizard.py`,
`tally_report_lines.py`).

Modelling conventions:
* monetary amounts are exact rationals (`Rat`); the Python source uses floats,
  but every claim under study is about sign/threshold/aggregation logic;
* dates are integers (only their ordering is used by the code);
* the single-company scope is implicit (every ledger models one company), so
  the `company_id` filters of the source are identities here;
* journal items are modelled single-currency: `amount_residual_currency` is 0
  in company currency, so the Python `residual_currency or residual` fallback
  always selects `amount_residual`, which is the field carried here;
* the Odoo ORM is replaced by explicit lists: `search` becomes `List.filter`
  over the ledger's account/move-line lists, `read_group` becomes a fold over
  the matching move lines (an account with no matching lines produces no
  `read_group` row, hence no balance entry), and Python's stable `sorted` by
  `(code, name)` becomes a stable insertion sort by the same key;
* the Python loops that emit report lines while incrementing a sequence
  counter by 10 per emitted line are expressed as list concatenation followed
  by `bumpSeq`, which assigns 10, 20, 30, … in emission order — the same
  sequence numbers the source assigns;
* group grand totals: the source adds a group's subtotal to the running grand
  total only when the group emitted lines; a group that emits nothing has
  subtotal 0, so summing subtotals over the full group order is the same
  number, and that is how the grand totals are written here.
-/

/-! ### String utilities (kernel-executable replacements for `in` and `.lower()`) -/

/-- `charsStartWith hay pat` is true when `pat` is an initial segment of `hay`. -/
def charsStartWith : List Char → List Char → Bool
  | _, [] => true
  | [], _ :: _ => false
  | h :: hs, p :: ps => h == p && charsStartWith hs ps

/-- `charsContain hay pat` is true when `pat` occurs contiguously inside `hay`
(Python's `pat in hay`). -/
def charsContain : List Char → List Char → Bool
  | [], pat => pat.isEmpty
  | h :: hs, pat => charsStartWith (h :: hs) pat || charsContain hs pat

/-- Python's substring test `pat in hay`. -/
def strContains (hay pat : String) : Bool := charsContain hay.data pat.data

/-- Python's `str.lower()` (ASCII case folding, which covers every account
name and type tag the source compares). -/
def strLower (s : String) : String := ⟨s.data.map Char.toLower⟩

/-- Lexicographic (code-point) comparison on character lists: Python's `<=`
on strings. -/
def listCharLe : List Char → List Char → Bool
  | [], _ => true
  | _ :: _, [] => false
  | a :: as, b :: bs => if a == b then listCharLe as bs else decide (a.toNat < b.toNat)

/-! ### Data model -/

/-- An `account.account` record as the report engine reads it. -/
structure Account where
  id : Nat
  name : String
  code : String
  account_type : String
deriving DecidableEq

/-- An `account.move.line` record as the report engine reads it
(`state` is the parent move's state, `move_type` the parent move's type). -/
structure MoveLine where
  account_id : Nat
  date : Int
  state : String
  debit : Rat
  credit : Rat
  move_type : String
  amount_residual : Rat
deriving DecidableEq

/-- The external ledger store: the accounts and journal items of one company. -/
structure Ledger where
  accounts : List Account
  lines : List MoveLine
deriving DecidableEq

/-- The 0.01 materiality threshold used throughout the wizards. -/
def threshold : Rat := 1 / 100

/-! ### Account classifiers -/

/-- `TrialBalanceWizard._classify_account_to_tally_group`. -/
def classify_account_to_tally_group (account : Account) : String :=
  let account_type := account.account_type
  let name := strLower account.name
  if account_type == "asset_receivable" then "Sundry Debtors"
  else if account_type == "liability_payable" then "Sundry Creditors"
  else if account_type == "asset_cash" then
    if strContains name "cash" || strContains name "petty" then "Cash-in-Hand"
    else if strContains name "bank" then "Bank Accounts"
    else "Cash-in-Hand"
  else if account_type == "equity" || account_type == "equity_unaffected" then "Capital Account"
  else if account_type == "liability_current" || account_type == "liability_credit_card" then
    if strContains name "tax" || strContains name "gst" || strContains name "vat" ||
        strContains name "tds" || strContains name "duty" then "Duties & Taxes"
    else if strContains name "provision" then "Provisions"
    else "Current Liabilities"
  else if account_type == "liability_non_current" then
    if strContains name "loan" || strContains name "borrowing" || strContains name "debt" then
      "Loans (Liability)"
    else "Current Liabilities"
  else if account_type == "asset_fixed" || account_type == "asset_non_current" then "Fixed Assets"
  else if account_type == "asset_current" || account_type == "asset_prepayment" then
    if strContains name "inventory" || strContains name "stock" then "Stock-in-Hand"
    else if strContains name "deposit" || strContains name "advance" || strContains name "prepaid" then
      "Deposits (Asset)"
    else if strContains name "bank" then "Bank Accounts"
    else "Current Assets"
  else if account_type == "income" then
    if strContains name "sale" || strContains name "revenue" || strContains name "service income" then
      "Sales Accounts"
    else "Direct Incomes"
  else if account_type == "income_other" then "Indirect Incomes"
  else if account_type == "expense_direct_cost" then
    if strContains name "purchase" || strContains name "cost of goods" || strContains name "cogs" then
      "Purchase Accounts"
    else "Direct Expenses"
  else if account_type == "expense" then "Direct Expenses"
  else if account_type == "expense_depreciation" then "Indirect Expenses"
  else "Miscellaneous"

/-- `BalanceSheetWizard._classify_bs_account_to_tally_group`. -/
def classify_bs_account_to_tally_group (account : Account) : String :=
  let account_type := account.account_type
  let name := strLower account.name
  if account_type == "equity" || account_type == "equity_unaffected" then "Capital Account"
  else if account_type == "liability_payable" then "Sundry Creditors"
  else if account_type == "liability_current" || account_type == "liability_credit_card" then
    if strContains name "tax" || strContains name "gst" || strContains name "vat" ||
        strContains name "tds" || strContains name "duty" then "Duties & Taxes"
    else if strContains name "provision" then "Provisions"
    else "Current Liabilities"
  else if account_type == "liability_non_current" then
    if strContains name "loan" || strContains name "borrowing" || strContains name "debt" then
      "Loans (Liability)"
    else "Current Liabilities"
  else if account_type == "asset_fixed" || account_type == "asset_non_current" then "Fixed Assets"
  else if account_type == "asset_receivable" then "Sundry Debtors"
  else if account_type == "asset_cash" then
    if strContains name "cash" || strContains name "petty" then "Cash-in-Hand"
    else if strContains name "bank" then "Bank Accounts"
    else "Cash-in-Hand"
  else if account_type == "asset_current" || account_type == "asset_prepayment" then
    if strContains name "inventory" || strContains name "stock" then "Stock-in-Hand"
    else if strContains name "deposit" || strContains name "advance" || strContains name "prepaid" then
      "Deposits (Asset)"
    else if strContains name "bank" then "Bank Accounts"
    else "Current Assets"
  else "Miscellaneous"

/-- `ProfitLossWizard._classify_pl_account_to_tally_group`. -/
def classify_pl_account_to_tally_group (account : Account) : String :=
  let acc_type := account.account_type
  let name := strLower account.name
  if strContains name "sale" || strContains name "revenue" || strContains name "service" then
    "Sales Accounts"
  else if strContains name "purchase" || strContains name "cost of goods" || strContains name "cogs" then
    "Purchase Accounts"
  else if strContains name "direct income" then "Direct Incomes"
  else if strContains name "direct expense" then "Direct Expenses"
  else if strContains name "indirect income" then "Indirect Incomes"
  else if strContains name "salary" || strContains name "rent" || strContains name "admin" ||
      strContains name "utilities" || strContains name "depreciation" then "Indirect Expenses"
  else if acc_type == "income" then "Sales Accounts"
  else if acc_type == "income_other" then "Indirect Incomes"
  else if acc_type == "expense_direct_cost" then "Direct Expenses"
  else if acc_type == "expense" || acc_type == "expense_depreciation" then "Indirect Expenses"
  else "Miscellaneous Expenses"

/-- Every name-substring condition tested by the P&L classifier before its
type fallback, as one predicate on the lowered name. -/
def plNameRuleMatches (name : String) : Bool :=
  strContains name "sale" || strContains name "revenue" || strContains name "service" ||
  strContains name "purchase" || strContains name "cost of goods" || strContains name "cogs" ||
  strContains name "direct income" || strContains name "direct expense" ||
  strContains name "indirect income" ||
  strContains name "salary" || strContains name "rent" || strContains name "admin" ||
  strContains name "utilities" || strContains name "depreciation"

/-- The native type tags given a dedicated branch by the trial-balance
classifier; anything else reaches the terminal `Miscellaneous` fallback. -/
def tb_handled_account_types : List String :=
  ["asset_receivable", "liability_payable", "asset_cash", "equity", "equity_unaffected",
   "liability_current", "liability_credit_card", "liability_non_current",
   "asset_fixed", "asset_non_current", "asset_current", "asset_prepayment",
   "income", "income_other", "expense_direct_cost", "expense", "expense_depreciation"]

/-! ### Ledger accessor / balance engine -/

/-- Posted move lines of one account dated on or before `dateTo`
(the recurring search domain of the wizards). -/
def postedUpTo (lines : List MoveLine) (accId : Nat) (dateTo : Int) : List MoveLine :=
  lines.filter (fun l => l.account_id == accId && l.state == "posted" && decide (l.date ≤ dateTo))

/-- Posted move lines of one account dated within `[dateFrom, dateTo]`. -/
def periodLines (lines : List MoveLine) (accId : Nat) (dateFrom dateTo : Int) : List MoveLine :=
  lines.filter (fun l => l.account_id == accId && l.state == "posted" &&
    decide (dateFrom ≤ l.date) && decide (l.date ≤ dateTo))

def sumDebit (ls : List MoveLine) : Rat := (ls.map MoveLine.debit).sum

def sumCredit (ls : List MoveLine) : Rat := (ls.map MoveLine.credit).sum

/-- The move types whose lines carry `amount_residual` tracking. -/
def invoice_move_types : List String :=
  ["out_invoice", "in_invoice", "out_refund", "in_refund", "out_receipt", "in_receipt"]

def rec_pay_types : List String := ["asset_receivable", "liability_payable"]

/-- Outstanding total of a receivable/payable account: sum of per-document
residuals over posted invoice-type lines, skipping residuals at or below the
threshold (`if abs(residual) > 0.01: outstanding_total += residual`). -/
def recPayOutstanding (lines : List MoveLine) (accId : Nat) (dateTo : Int) : Rat :=
  ((postedUpTo lines accId dateTo).filter (fun l => invoice_move_types.contains l.move_type)).foldl
    (fun t l => if threshold < |l.amount_residual| then t + l.amount_residual else t) 0

/-- One account's contribution to the balances dict: receivables/payables via
outstanding residuals guarded by a strict `> 0.01`, all other accounts via
`debit - credit` over all posted lines guarded by `>= 0.01`. -/
def accountBalanceEntry (lines : List MoveLine) (dateTo : Int) (a : Account) :
    Option (Account × Rat) :=
  if rec_pay_types.contains a.account_type then
    let t := recPayOutstanding lines a.id dateTo
    if threshold < |t| then some (a, t) else none
  else
    let ls := postedUpTo lines a.id dateTo
    let bal := sumDebit ls - sumCredit ls
    if threshold ≤ |bal| then some (a, bal) else none

/-- `TrialBalanceWizard._get_account_balances`: every account except
off-balance ones, receivables/payables first (their dict-insertion order). -/
def get_account_balances (led : Ledger) (dateTo : Int) : List (Account × Rat) :=
  let all_accounts := led.accounts.filter (fun a => a.account_type != "off_balance")
  let rec_pay := all_accounts.filter (fun a => rec_pay_types.contains a.account_type)
  let other := all_accounts.filter (fun a => !rec_pay_types.contains a.account_type)
  rec_pay.filterMap (accountBalanceEntry led.lines dateTo) ++
    other.filterMap (accountBalanceEntry led.lines dateTo)

/-- The balance-sheet account-type superset. -/
def bs_account_types : List String :=
  ["asset_receivable", "asset_cash", "asset_current", "asset_prepayment",
   "asset_fixed", "asset_non_current",
   "liability_payable", "liability_current", "liability_non_current",
   "liability_credit_card",
   "equity", "equity_unaffected"]

/-- `BalanceSheetWizard._get_closing_balances`: same per-account logic as the
trial balance, restricted to balance-sheet account types. -/
def get_closing_balances (led : Ledger) (dateTo : Int) : List (Account × Rat) :=
  let accounts := led.accounts.filter (fun a => bs_account_types.contains a.account_type)
  let rec_pay := accounts.filter (fun a => rec_pay_types.contains a.account_type)
  let other := accounts.filter (fun a => !rec_pay_types.contains a.account_type)
  rec_pay.filterMap (accountBalanceEntry led.lines dateTo) ++
    other.filterMap (accountBalanceEntry led.lines dateTo)

def pl_account_types : List String :=
  ["income", "income_other", "expense_direct_cost", "expense", "expense_depreciation"]

def income_types : List String := ["income", "income_other"]

/-- `ProfitLossWizard._get_period_balances`: per profit-and-loss account with
at least one posted line in the period, credit−debit for income types and
debit−credit for expense types. -/
def get_period_balances (led : Ledger) (dateFrom dateTo : Int) : List (Account × Rat) :=
  (led.accounts.filter (fun a => pl_account_types.contains a.account_type)).filterMap (fun a =>
    let ls := periodLines led.lines a.id dateFrom dateTo
    if ls.isEmpty then none
    else if income_types.contains a.account_type then some (a, sumCredit ls - sumDebit ls)
    else some (a, sumDebit ls - sumCredit ls))

/-- `BalanceSheetWizard._get_period_profit_loss`: income total minus expense
total over the period. -/
def get_period_profit_loss (led : Ledger) (dateFrom dateTo : Int) : Rat :=
  let accounts := led.accounts.filter (fun a => pl_account_types.contains a.account_type)
  let income_total := (accounts.map (fun a =>
      let ls := periodLines led.lines a.id dateFrom dateTo
      if ls.isEmpty || !income_types.contains a.account_type then 0
      else sumCredit ls - sumDebit ls)).sum
  let expense_total := (accounts.map (fun a =>
      let ls := periodLines led.lines a.id dateFrom dateTo
      if ls.isEmpty || income_types.contains a.account_type then 0
      else sumDebit ls - sumCredit ls)).sum
  income_total - expense_total

/-! ### Sorting by `(code, name)` -/

/-- Python's tuple comparison `(a.code, a.name) <= (b.code, b.name)`. -/
def acctKeyLeb (a b : Account) : Bool :=
  if a.code == b.code then listCharLe a.name.data b.name.data
  else listCharLe a.code.data b.code.data

def acctPairLe (p q : Account × Rat) : Prop := acctKeyLeb p.1 q.1 = true

instance : DecidableRel acctPairLe := fun p q => by unfold acctPairLe; infer_instance

/-- Python's stable `sorted(accounts, key=lambda a: (a.code or '', a.name))`. -/
def sortMembers (ps : List (Account × Rat)) : List (Account × Rat) :=
  List.insertionSort acctPairLe ps

/-- Materiality check applied inside the report loops
(`if abs(balance) < 0.01: continue`). -/
def materialPair (p : Account × Rat) : Bool := !(decide (|p.2| < threshold))

/-! ### Report line records -/

/-- A `tally.trial.balance.line` record. -/
structure TBLine where
  sequence : Nat
  level : Nat
  name : String
  debit : Rat
  credit : Rat
  is_group : Bool
  is_total : Bool
deriving DecidableEq

/-- A `tally.profit.loss.line` record. -/
structure PLLine where
  sequence : Nat
  level : Nat
  name : String
  code : String
  amount : Rat
  is_group : Bool
  is_total : Bool
  is_net_result : Bool
deriving DecidableEq

/-- A `tally.balance.sheet.line` record. -/
structure BSLine where
  sequence : Nat
  level : Nat
  name : String
  code : String
  amount : Rat
  is_group : Bool
  is_total : Bool
deriving DecidableEq

/-- Assigns sequence numbers 10, 20, 30, … in emission order, exactly as the
wizards' `sequence += 10` counters do. -/
def bumpSeq {α : Type} (set : α → Nat → α) : Nat → List α → List α
  | _, [] => []
  | s, l :: ls => set l (s + 10) :: bumpSeq set (s + 10) ls

def tbSetSeq (l : TBLine) (n : Nat) : TBLine := { l with sequence := n }

def plSetSeq (l : PLLine) (n : Nat) : PLLine := { l with sequence := n }

def bsSetSeq (l : BSLine) (n : Nat) : BSLine := { l with sequence := n }

def tbAssignSeq (ls : List TBLine) : List TBLine := bumpSeq tbSetSeq 0 ls

def plAssignSeq (ls : List PLLine) : List PLLine := bumpSeq plSetSeq 0 ls

def bsAssignSeq (ls : List BSLine) : List BSLine := bumpSeq bsSetSeq 0 ls

/-! ### Trial balance report assembly -/

/-- The Tally standard group order of the trial balance. -/
def group_order : List String :=
  ["Capital Account", "Current Liabilities", "Loans (Liability)", "Sundry Creditors",
   "Duties & Taxes", "Provisions",
   "Fixed Assets", "Current Assets", "Stock-in-Hand", "Sundry Debtors",
   "Cash-in-Hand", "Bank Accounts", "Deposits (Asset)",
   "Sales Accounts", "Direct Incomes", "Indirect Incomes",
   "Purchase Accounts", "Direct Expenses", "Indirect Expenses",
   "Miscellaneous"]

/-- Members of one trial-balance group: classified accounts, sorted by
`(code, name)`, immaterial balances skipped. -/
def tbGroupMembers (bals : List (Account × Rat)) (g : String) : List (Account × Rat) :=
  (sortMembers (bals.filter (fun p => classify_account_to_tally_group p.1 == g))).filter
    materialPair

/-- `debit = balance if balance > 0 else 0.0`. -/
def tbDebitOf (b : Rat) : Rat := if 0 < b then b else 0

/-- `credit = abs(balance) if balance < 0 else 0.0`. -/
def tbCreditOf (b : Rat) : Rat := if b < 0 then |b| else 0

def tbAccountLine (p : Account × Rat) : TBLine :=
  { sequence := 0, level := 1, name := "  " ++ p.1.name,
    debit := tbDebitOf p.2, credit := tbCreditOf p.2,
    is_group := false, is_total := false }

def tbGroupDebit (bals : List (Account × Rat)) (g : String) : Rat :=
  ((tbGroupMembers bals g).map (fun p => tbDebitOf p.2)).sum

def tbGroupCredit (bals : List (Account × Rat)) (g : String) : Rat :=
  ((tbGroupMembers bals g).map (fun p => tbCreditOf p.2)).sum

/-- The lines one trial-balance group emits: nothing when it has no material
members, otherwise a header carrying the group totals followed by the member
account lines. -/
def tbGroupBlock (bals : List (Account × Rat)) (g : String) : List TBLine :=
  let members := tbGroupMembers bals g
  if members.isEmpty then []
  else
    { sequence := 0, level := 0, name := g, debit := tbGroupDebit bals g,
      credit := tbGroupCredit bals g, is_group := true, is_total := false } ::
      members.map tbAccountLine

def tbGrandDebit (bals : List (Account × Rat)) : Rat :=
  (group_order.map (fun g => tbGroupDebit bals g)).sum

def tbGrandCredit (bals : List (Account × Rat)) : Rat :=
  (group_order.map (fun g => tbGroupCredit bals g)).sum

def tbTotalLine (bals : List (Account × Rat)) : TBLine :=
  { sequence := 0, level := 0, name := "Total", debit := tbGrandDebit bals,
    credit := tbGrandCredit bals, is_group := false, is_total := true }

def tbNoTransactionsLine : TBLine :=
  { sequence := 10, level := 0, name := "No transactions in this period",
    debit := 0, credit := 0, is_group := false, is_total := false }

/-- `TrialBalanceWizard._prepare_report_lines`. -/
def tb_prepare_report_lines (led : Ledger) (dateTo : Int) : List TBLine :=
  let bals := get_account_balances led dateTo
  if bals.isEmpty then [tbNoTransactionsLine]
  else tbAssignSeq (group_order.flatMap (tbGroupBlock bals) ++ [tbTotalLine bals])

/-! ### Profit and loss report assembly -/

def expense_groups : List String :=
  ["Purchase Accounts", "Direct Expenses", "Indirect Expenses", "Miscellaneous Expenses"]

def income_groups : List String :=
  ["Sales Accounts", "Direct Incomes", "Indirect Incomes"]

def plGroupMembers (bals : List (Account × Rat)) (g : String) : List (Account × Rat) :=
  (sortMembers (bals.filter (fun p => classify_pl_account_to_tally_group p.1 == g))).filter
    materialPair

def plAccountLine (p : Account × Rat) : PLLine :=
  { sequence := 0, level := 1, name := "  " ++ p.1.name, code := p.1.code,
    amount := p.2, is_group := false, is_total := false, is_net_result := false }

def plGroupTotal (bals : List (Account × Rat)) (g : String) : Rat :=
  ((plGroupMembers bals g).map (fun p => p.2)).sum

def plGroupBlock (bals : List (Account × Rat)) (g : String) : List PLLine :=
  let members := plGroupMembers bals g
  if members.isEmpty then []
  else
    { sequence := 0, level := 0, name := g, code := "", amount := plGroupTotal bals g,
      is_group := true, is_total := false, is_net_result := false } ::
      members.map plAccountLine

def plSectionTotal (bals : List (Account × Rat)) (groups : List String) : Rat :=
  (groups.map (fun g => plGroupTotal bals g)).sum

/-- `net_result = total_income - total_expenses`. -/
def pl_net_result (bals : List (Account × Rat)) : Rat :=
  plSectionTotal bals income_groups - plSectionTotal bals expense_groups

/-- The trailing net-result line: `Net Profit` when `net_result >= 0`, else
`Net Loss` with the absolute value. -/
def plNetLine (net : Rat) : PLLine :=
  if 0 ≤ net then
    { sequence := 0, level := 0, name := "Net Profit", code := "", amount := net,
      is_group := false, is_total := false, is_net_result := true }
  else
    { sequence := 0, level := 0, name := "Net Loss", code := "", amount := |net|,
      is_group := false, is_total := false, is_net_result := true }

def plNoTransactionsLine : PLLine :=
  { sequence := 10, level := 0, name := "No transactions in this period", code := "",
    amount := 0, is_group := false, is_total := false, is_net_result := false }

/-- `ProfitLossWizard._prepare_report_lines`. -/
def pl_prepare_report_lines (led : Ledger) (dateFrom dateTo : Int) : List PLLine :=
  let bals := get_period_balances led dateFrom dateTo
  if bals.isEmpty then [plNoTransactionsLine]
  else
    plAssignSeq (income_groups.flatMap (plGroupBlock bals) ++
      expense_groups.flatMap (plGroupBlock bals) ++ [plNetLine (pl_net_result bals)])

/-! ### Balance sheet report assembly -/

def liability_groups : List String :=
  ["Capital Account", "Current Liabilities", "Loans (Liability)", "Sundry Creditors",
   "Duties & Taxes", "Provisions"]

def asset_groups : List String :=
  ["Fixed Assets", "Current Assets", "Stock-in-Hand", "Sundry Debtors",
   "Cash-in-Hand", "Bank Accounts", "Deposits (Asset)", "Miscellaneous"]

def bsGroupMembers (bals : List (Account × Rat)) (g : String) : List (Account × Rat) :=
  (sortMembers (bals.filter (fun p => classify_bs_account_to_tally_group p.1 == g))).filter
    materialPair

/-- Every balance-sheet account line displays `abs(balance)`. -/
def bsAccountLine (p : Account × Rat) : BSLine :=
  { sequence := 0, level := 1, name := "  " ++ p.1.name, code := p.1.code,
    amount := |p.2|, is_group := false, is_total := false }

/-- Liability side: a credit (negative) balance adds its magnitude to the
group total, a debit balance subtracts it. -/
def bsLiabSigned (b : Rat) : Rat := if b < 0 then |b| else -|b|

/-- Asset side: a debit (positive) balance adds its magnitude, a credit
balance subtracts it. -/
def bsAssetSigned (b : Rat) : Rat := if 0 < b then |b| else -|b|

def bsLiabGroupTotal (bals : List (Account × Rat)) (g : String) : Rat :=
  ((bsGroupMembers bals g).map (fun p => bsLiabSigned p.2)).sum

def bsAssetGroupTotal (bals : List (Account × Rat)) (g : String) : Rat :=
  ((bsGroupMembers bals g).map (fun p => bsAssetSigned p.2)).sum

def bsGroupHeader (g : String) (amt : Rat) : BSLine :=
  { sequence := 0, level := 0, name := g, code := "", amount := amt,
    is_group := true, is_total := false }

/-- The explicit net profit/loss sub-line under the Capital Account group. -/
def bsNetPlLine (npl : Rat) : BSLine :=
  { sequence := 0, level := 1,
    name := if 0 ≤ npl then "  Net Profit" else "  Net Loss", code := "",
    amount := |npl|, is_group := false, is_total := false }

/-- One liability group's emitted lines and its contribution to the
liabilities total. The Capital Account group always emits (the period net
profit/loss is folded into its total, and shown as a sub-line when material);
any other group emits only when it has material members. -/
def bsLiabGroupBlock (bals : List (Account × Rat)) (npl : Rat) (g : String) :
    List BSLine × Rat :=
  let members := bsGroupMembers bals g
  let glines := members.map bsAccountLine
  if g == "Capital Account" then
    let gt := bsLiabGroupTotal bals g + npl
    ((bsGroupHeader g (|gt|) :: glines) ++
      (if threshold < |npl| then [bsNetPlLine npl] else []), |gt|)
  else if glines.isEmpty then ([], 0)
  else (bsGroupHeader g (|bsLiabGroupTotal bals g|) :: glines, |bsLiabGroupTotal bals g|)

def bsAssetGroupBlock (bals : List (Account × Rat)) (g : String) : List BSLine × Rat :=
  let members := bsGroupMembers bals g
  let glines := members.map bsAccountLine
  if glines.isEmpty then ([], 0)
  else (bsGroupHeader g (|bsAssetGroupTotal bals g|) :: glines, |bsAssetGroupTotal bals g|)

def bsLiabLines (bals : List (Account × Rat)) (npl : Rat) : List BSLine :=
  liability_groups.flatMap (fun g => (bsLiabGroupBlock bals npl g).1)

def bsLiabTotal (bals : List (Account × Rat)) (npl : Rat) : Rat :=
  (liability_groups.map (fun g => (bsLiabGroupBlock bals npl g).2)).sum

def bsAssetLines (bals : List (Account × Rat)) : List BSLine :=
  asset_groups.flatMap (fun g => (bsAssetGroupBlock bals g).1)

def bsAssetTotal (bals : List (Account × Rat)) : Rat :=
  (asset_groups.map (fun g => (bsAssetGroupBlock bals g).2)).sum

def bsTotalLine (amt : Rat) : BSLine :=
  { sequence := 0, level := 0, name := "Total", code := "", amount := amt,
    is_group := false, is_total := true }

/-- The minimal report produced when the closing balance set is empty:
Capital Account group, net profit/loss sub-line, Total. -/
def bsMinimalLines (npl : Rat) : List BSLine :=
  [{ sequence := 10, level := 0, name := "Capital Account", code := "", amount := |npl|,
     is_group := true, is_total := false },
   { sequence := 20, level := 1,
     name := if 0 ≤ npl then "  Net Profit" else "  Net Loss", code := "",
     amount := |npl|, is_group := false, is_total := false },
   { sequence := 30, level := 0, name := "Total", code := "", amount := |npl|,
     is_group := false, is_total := true }]

/-- `BalanceSheetWizard._prepare_vertical_report_lines`. The fiscal-year
start date is computed by the (external) company calendar and passed in. -/
def prepare_vertical_report_lines (led : Ledger) (dateTo fiscalYearStart : Int) :
    List BSLine :=
  let bals := get_closing_balances led dateTo
  let npl := get_period_profit_loss led fiscalYearStart dateTo
  if bals.isEmpty then bsMinimalLines npl
  else
    bsAssignSeq (bsLiabLines bals npl ++ bsAssetLines bals ++
      [bsTotalLine (max (bsLiabTotal bals npl) (bsAssetTotal bals))])

/-- `BalanceSheetWizard._prepare_horizontal_report_lines`: the two
independently assembled side lists, each ending with its own Total line. -/
def prepare_horizontal_report_lines (led : Ledger) (dateTo fiscalYearStart : Int) :
    List BSLine × List BSLine :=
  let bals := get_closing_balances led dateTo
  let npl := get_period_profit_loss led fiscalYearStart dateTo
  if bals.isEmpty then
    (bsMinimalLines npl,
     [{ sequence := 30, level := 0, name := "Total", code := "", amount := |npl|,
        is_group := false, is_total := true }])
  else
    (bsAssignSeq (bsLiabLines bals npl ++ [bsTotalLine (bsLiabTotal bals npl)]),
     bsAssignSeq (bsAssetLines bals ++ [bsTotalLine (bsAssetTotal bals)]))

/-- `BalanceSheetWizard._download_horizontal_excel` writes element `i` of each
side list at worksheet row `5 + i`; this is the row a given line lands on. -/
def excelRowOfIndex (i : Nat) : Nat := 5 + i

/-- The worksheet row on which a side list's Total line is written. -/
def excelTotalRow (ls : List BSLine) : Nat :=
  excelRowOfIndex (ls.findIdx (fun l => l.is_total))

/-! ### Concrete ledgers used to settle the claims on explicit inputs -/

def accCapital : Account := ⟨1, "owner capital", "3000", "equity"⟩

def accMachine : Account := ⟨2, "machinery", "1500", "asset_fixed"⟩

def accCash : Account := ⟨3, "petty cash", "1200", "asset_cash"⟩

def accSales : Account := ⟨4, "sales", "4000", "income"⟩

def accPurchases : Account := ⟨5, "purchases", "5000", "expense_direct_cost"⟩

def accWages : Account := ⟨6, "accrued wages", "2002", "liability_current"⟩

def accRent : Account := ⟨7, "accrued rent", "2001", "liability_current"⟩

def accDues : Account := ⟨8, "customer dues", "1300", "asset_receivable"⟩

def accBankRec : Account := ⟨9, "Main bank account", "1101", "asset_receivable"⟩

/-- Income 100 (credit) on `sales`, expense 40 (debit) on `purchases`. -/
def ledgerPL : Ledger :=
  ⟨[accSales, accPurchases],
   [⟨4, 0, "posted", 0, 100, "entry", 0⟩,
    ⟨5, 0, "posted", 40, 0, "entry", 0⟩]⟩

/-- Equity credit 100, fixed asset debit 60: sides total 100 vs 60. -/
def ledgerBS : Ledger :=
  ⟨[accCapital, accMachine],
   [⟨1, 0, "posted", 0, 100, "entry", 0⟩,
    ⟨2, 0, "posted", 60, 0, "entry", 0⟩]⟩

/-- Equity credit 100, fixed asset debit 60, cash debit 40: the horizontal
report's side lists have lengths 3 and 5. -/
def ledgerBS3 : Ledger :=
  ⟨[accCapital, accMachine, accCash],
   [⟨1, 0, "posted", 0, 100, "entry", 0⟩,
    ⟨2, 0, "posted", 60, 0, "entry", 0⟩,
    ⟨3, 0, "posted", 40, 0, "entry", 0⟩]⟩

/-- A liability account with a debit (unnatural) balance of 100. -/
def ledgerLiabDebit : Ledger :=
  ⟨[accWages], [⟨6, 0, "posted", 100, 0, "entry", 0⟩]⟩

/-- The same liability account with a credit (natural) balance of 100. -/
def ledgerLiabCredit : Ledger :=
  ⟨[accWages], [⟨6, 0, "posted", 0, 100, "entry", 0⟩]⟩

/-- Two current-liability accounts with opposite-sign balances:
rent credit 100 (natural), wages debit 30 (unnatural). -/
def ledgerMixed : Ledger :=
  ⟨[accRent, accWages],
   [⟨7, 0, "posted", 0, 100, "entry", 0⟩,
    ⟨6, 0, "posted", 30, 0, "entry", 0⟩]⟩

/-- A receivable whose outstanding residuals sum to exactly 0.01. -/
def ledgerPennyResidual : Ledger :=
  ⟨[accDues],
   [⟨8, 0, "posted", 5, 0, "out_invoice", 5⟩,
    ⟨8, 0, "posted", 0, 499 / 100, "out_invoice", -499 / 100⟩]⟩

def ledgerEmpty : Ledger := ⟨[], []⟩

/-- A receivable-typed account whose name also matches the P&L `sale` rule. -/
def accSaleRec : Account := ⟨10, "sales ledger", "4001", "asset_receivable"⟩

/-- An account outside every classifier branch: unknown type, opaque name. -/
def accWeird : Account := ⟨11, "zz", "9999", "weird_type"⟩

/-! ### Helper lemmas: the sort key is a total preorder -/

lemma char_eq_of_toNat_eq {a b : Char} (h : a.toNat = b.toNat) : a = b :=
  Char.ext (UInt32.ext h)

lemma str_eq_of_data_eq {s t : String} (h : s.data = t.data) : s = t := by
  cases s; cases t
  exact congrArg String.mk (by simpa using h)

lemma listCharLe_total : ∀ xs ys : List Char,
    listCharLe xs ys = true ∨ listCharLe ys xs = true := by
  intro xs
  induction xs with
  | nil => intro ys; left; rfl
  | cons a as ih =>
    intro ys
    cases ys with
    | nil => right; rfl
    | cons b bs =>
      by_cases hab : a = b
      · subst hab
        simp only [listCharLe, beq_self_eq_true, if_true]
        exact ih bs
      · have h1 : (a == b) = false := by simp [hab]
        have h2 : (b == a) = false := by simp [Ne.symm hab]
        have hne : a.toNat ≠ b.toNat := fun hn => hab (char_eq_of_toNat_eq hn)
        simp only [listCharLe, h1, h2, Bool.false_eq_true, if_false]
        rcases Nat.lt_or_ge a.toNat b.toNat with h | h
        · left; exact decide_eq_true h
        · right; exact decide_eq_true (Nat.lt_of_le_of_ne h (Ne.symm hne))

lemma listCharLe_trans : ∀ xs ys zs : List Char,
    listCharLe xs ys = true → listCharLe ys zs = true → listCharLe xs zs = true := by
  intro xs
  induction xs with
  | nil => intro ys zs _ _; rfl
  | cons a as ih =>
    intro ys zs h1 h2
    cases ys with
    | nil => simp [listCharLe] at h1
    | cons b bs =>
      cases zs with
      | nil => simp [listCharLe] at h2
      | cons c cs =>
        by_cases hab : a = b <;> by_cases hbc : b = c
        · subst hab; subst hbc
          simp only [listCharLe, beq_self_eq_true, if_true] at h1 h2 ⊢
          exact ih bs cs h1 h2
        · subst hab
          have hc : (a == c) = false := by simp [hbc]
          simp only [listCharLe, beq_self_eq_true, if_true, hc, Bool.false_eq_true,
            if_false] at h1 h2 ⊢
          exact h2
        · subst hbc
          have hc : (a == b) = false := by simp [hab]
          simp only [listCharLe, hc, Bool.false_eq_true, if_false] at h1 ⊢
          exact h1
        · have hab' : (a == b) = false := by simp [hab]
          have hbc' : (b == c) = false := by simp [hbc]
          simp only [listCharLe, hab', hbc', Bool.false_eq_true, if_false,
            decide_eq_true_eq] at h1 h2
          by_cases hac : a = c
          · exfalso
            subst hac
            exact absurd (Nat.lt_trans h1 h2) (lt_irrefl _)
          · have hac' : (a == c) = false := by simp [hac]
            simp only [listCharLe, hac', Bool.false_eq_true, if_false, decide_eq_true_eq]
            exact Nat.lt_trans h1 h2

lemma listCharLe_antisymm : ∀ xs ys : List Char,
    listCharLe xs ys = true → listCharLe ys xs = true → xs = ys := by
  intro xs
  induction xs with
  | nil =>
    intro ys h1 h2
    cases ys with
    | nil => rfl
    | cons b bs => simp [listCharLe] at h2
  | cons a as ih =>
    intro ys h1 h2
    cases ys with
    | nil => simp [listCharLe] at h1
    | cons b bs =>
      by_cases hab : a = b
      · subst hab
        simp only [listCharLe, beq_self_eq_true, if_true] at h1 h2
        exact congrArg (a :: ·) (ih bs h1 h2)
      · have h1' : (a == b) = false := by simp [hab]
        have h2' : (b == a) = false := by simp [Ne.symm hab]
        simp only [listCharLe, h1', h2', Bool.false_eq_true, if_false,
          decide_eq_true_eq] at h1 h2
        exact absurd (Nat.lt_trans h1 h2) (lt_irrefl _)

lemma acctKeyLeb_total (a b : Account) : acctKeyLeb a b = true ∨ acctKeyLeb b a = true := by
  unfold acctKeyLeb
  by_cases h : a.code = b.code
  · simp only [h, beq_self_eq_true, if_true]
    exact listCharLe_total a.name.data b.name.data
  · have h1 : (a.code == b.code) = false := by simp [h]
    have h2 : (b.code == a.code) = false := by simp [Ne.symm h]
    simp only [h1, h2, Bool.false_eq_true, if_false]
    exact listCharLe_total a.code.data b.code.data

lemma acctKeyLeb_trans {a b c : Account} (h1 : acctKeyLeb a b = true)
    (h2 : acctKeyLeb b c = true) : acctKeyLeb a c = true := by
  unfold acctKeyLeb at h1 h2 ⊢
  by_cases hab : a.code = b.code <;> by_cases hbc : b.code = c.code
  · have hac : a.code = c.code := hab.trans hbc
    simp only [hab, hbc, beq_self_eq_true, if_true] at h1 h2
    simp only [hac, beq_self_eq_true, if_true]
    exact listCharLe_trans _ _ _ h1 h2
  · have hbc' : (b.code == c.code) = false := by simp [hbc]
    simp only [hbc', Bool.false_eq_true, if_false] at h2
    simp only [hab, hbc', Bool.false_eq_true, if_false]
    exact h2
  · have hab' : (a.code == b.code) = false := by simp [hab]
    simp only [hab', Bool.false_eq_true, if_false] at h1
    simp only [← hbc, hab', Bool.false_eq_true, if_false]
    exact h1
  · have hab' : (a.code == b.code) = false := by simp [hab]
    have hbc' : (b.code == c.code) = false := by simp [hbc]
    simp only [hab', Bool.false_eq_true, if_false] at h1
    simp only [hbc', Bool.false_eq_true, if_false] at h2
    by_cases hac : a.code = c.code
    · exfalso
      have : listCharLe b.code.data a.code.data = true := by rw [← hac] at h2; exact h2
      exact hab (str_eq_of_data_eq (listCharLe_antisymm _ _ h1 this))
    · have hac' : (a.code == c.code) = false := by simp [hac]
      simp only [hac', Bool.false_eq_true, if_false]
      exact listCharLe_trans _ _ _ h1 h2

instance : IsTotal (Account × Rat) acctPairLe :=
  ⟨fun p q => acctKeyLeb_total p.1 q.1⟩

instance : IsTrans (Account × Rat) acctPairLe :=
  ⟨fun _ _ _ h1 h2 => acctKeyLeb_trans h1 h2⟩

/-! ### Helper lemmas: sequence assignment -/

lemma bumpSeq_append {α : Type} (set : α → Nat → α) :
    ∀ (xs : List α) (s : Nat) (ys : List α),
      bumpSeq set s (xs ++ ys) = bumpSeq set s xs ++ bumpSeq set (s + 10 * xs.length) ys := by
  intro xs
  induction xs with
  | nil => intro s ys; simp [bumpSeq]
  | cons x xs ih =>
    intro s ys
    simp only [List.cons_append, bumpSeq, List.length_cons, List.append_eq]
    rw [ih]
    have h : s + 10 * (xs.length + 1) = s + 10 + 10 * xs.length := by ring
    rw [h]

lemma mem_bumpSeq {α : Type} (set : α → Nat → α) :
    ∀ {ls : List α} {s : Nat} {a : α}, a ∈ bumpSeq set s ls → ∃ b ∈ ls, ∃ n, a = set b n := by
  intro ls
  induction ls with
  | nil => intro s a h; simp [bumpSeq] at h
  | cons x xs ih =>
    intro s a h
    simp only [bumpSeq, List.mem_cons] at h
    rcases h with h | h
    · exact ⟨x, List.mem_cons_self x xs, s + 10, h⟩
    · obtain ⟨b, hb, n, hn⟩ := ih h
      exact ⟨b, List.mem_cons_of_mem x hb, n, hn⟩

lemma bumpSeq_concat_getLast {α : Type} (set : α → Nat → α) (xs : List α) (y : α) (s : Nat) :
    (bumpSeq set s (xs ++ [y])).getLast? = some (set y (s + 10 * xs.length + 10)) := by
  rw [bumpSeq_append]
  simp [bumpSeq, List.getLast?_concat]

@[simp] lemma tbSetSeq_level (l : TBLine) (n : Nat) : (tbSetSeq l n).level = l.level := rfl

@[simp] lemma tbSetSeq_name (l : TBLine) (n : Nat) : (tbSetSeq l n).name = l.name := rfl

@[simp] lemma tbSetSeq_debit (l : TBLine) (n : Nat) : (tbSetSeq l n).debit = l.debit := rfl

@[simp] lemma tbSetSeq_credit (l : TBLine) (n : Nat) : (tbSetSeq l n).credit = l.credit := rfl

@[simp] lemma plSetSeq_name (l : PLLine) (n : Nat) : (plSetSeq l n).name = l.name := rfl

@[simp] lemma plSetSeq_amount (l : PLLine) (n : Nat) : (plSetSeq l n).amount = l.amount := rfl

@[simp] lemma plSetSeq_is_net_result (l : PLLine) (n : Nat) :
    (plSetSeq l n).is_net_result = l.is_net_result := rfl

@[simp] lemma bsSetSeq_name (l : BSLine) (n : Nat) : (bsSetSeq l n).name = l.name := rfl

@[simp] lemma bsSetSeq_amount (l : BSLine) (n : Nat) : (bsSetSeq l n).amount = l.amount := rfl

@[simp] lemma bsSetSeq_is_total (l : BSLine) (n : Nat) : (bsSetSeq l n).is_total = l.is_total := rfl

/-! ### C1 -/

/-- C1 counterexample: the trial-balance classifier does not give name rules
priority. `accBankRec` is named "Main bank account" (so the `bank` name rule
matches) but carries the `asset_receivable` type tag, and it is classified by
the type rule as "Sundry Debtors", not as "Bank Accounts". -/
theorem C1_counterexample :
    strContains (strLower accBankRec.name) "bank" = true ∧
    classify_account_to_tally_group accBankRec = "Sundry Debtors" ∧
    classify_account_to_tally_group accBankRec ≠ "Bank Accounts" :=
  ⟨by decide, by decide, by decide⟩

/-- C1 amended: only the P&L classifier evaluates its name-substring rules
before the native-type fallback (any account whose lowered name contains
`sale` gets "Sales Accounts" regardless of type); the trial-balance and
balance-sheet classifiers branch on the native type first, so e.g. every
`asset_receivable` account is "Sundry Debtors" regardless of its name. -/
theorem C1_amended_theorem (a : Account) :
    (a.account_type = "asset_receivable" →
      classify_account_to_tally_group a = "Sundry Debtors" ∧
      classify_bs_account_to_tally_group a = "Sundry Debtors") ∧
    (strContains (strLower a.name) "sale" = true →
      classify_pl_account_to_tally_group a = "Sales Accounts") := by
  constructor
  · intro h
    constructor
    · unfold classify_account_to_tally_group
      rw [h]
      rfl
    · unfold classify_bs_account_to_tally_group
      rw [h]
      rfl
  · intro h
    unfold classify_pl_account_to_tally_group
    simp [h]

/-- C1 amended, witnessed at `accSaleRec` (type `asset_receivable`, name
containing `sale`): both hypotheses hold and all three classifications are as
the amended claim states. -/
theorem C1_amended_witness :
    accSaleRec.account_type = "asset_receivable" ∧
    strContains (strLower accSaleRec.name) "sale" = true ∧
    classify_account_to_tally_group accSaleRec = "Sundry Debtors" ∧
    classify_bs_account_to_tally_group accSaleRec = "Sundry Debtors" ∧
    classify_pl_account_to_tally_group accSaleRec = "Sales Accounts" :=
  ⟨rfl, by decide,
   ((C1_amended_theorem accSaleRec).1 rfl).1,
   ((C1_amended_theorem accSaleRec).1 rfl).2,
   (C1_amended_theorem accSaleRec).2 (by decide)⟩

/-! ### C9 -/

/-- C9 counterexample: the P&L classifier's terminal fallback is the group
"Miscellaneous Expenses", not "Miscellaneous". The account `accWeird` (name
"zz", type `asset_cash`) matches no P&L name rule and no P&L type rule. -/
theorem C9_counterexample :
    classify_pl_account_to_tally_group ⟨11, "zz", "9999", "asset_cash"⟩ =
      "Miscellaneous Expenses" ∧
    ("Miscellaneous Expenses" : String) ≠ "Miscellaneous" :=
  ⟨by decide, by decide⟩

/-- C9 amended: classification is total (never an error). An account whose
type is outside every trial-balance type branch falls through to
"Miscellaneous"; likewise for the balance-sheet classifier (whose branches
cover exactly the balance-sheet type superset); the P&L classifier instead
falls through to "Miscellaneous Expenses" when no name rule and no P&L type
rule matches. -/
theorem C9_amended_theorem (a : Account) :
    (tb_handled_account_types.contains a.account_type = false →
      classify_account_to_tally_group a = "Miscellaneous") ∧
    (bs_account_types.contains a.account_type = false →
      classify_bs_account_to_tally_group a = "Miscellaneous") ∧
    (plNameRuleMatches (strLower a.name) = false →
      pl_account_types.contains a.account_type = false →
      classify_pl_account_to_tally_group a = "Miscellaneous Expenses") := by
  refine ⟨fun h => ?_, fun h => ?_, fun hn ht => ?_⟩
  · simp only [tb_handled_account_types, List.contains_cons, List.contains_nil,
      Bool.or_eq_false_iff] at h
    unfold classify_account_to_tally_group
    simp_all
  · simp only [bs_account_types, List.contains_cons, List.contains_nil,
      Bool.or_eq_false_iff] at h
    unfold classify_bs_account_to_tally_group
    simp_all
  · simp only [plNameRuleMatches, Bool.or_eq_false_iff] at hn
    simp only [pl_account_types, List.contains_cons, List.contains_nil,
      Bool.or_eq_false_iff] at ht
    unfold classify_pl_account_to_tally_group
    simp_all

/-- C9 amended, witnessed at `accWeird` (type `weird_type`, name `zz`): all
three fallthrough hypotheses hold and each classifier lands on its terminal
fallback group. -/
theorem C9_amended_witness :
    tb_handled_account_types.contains accWeird.account_type = false ∧
    bs_account_types.contains accWeird.account_type = false ∧
    plNameRuleMatches (strLower accWeird.name) = false ∧
    pl_account_types.contains accWeird.account_type = false ∧
    classify_account_to_tally_group accWeird = "Miscellaneous" ∧
    classify_bs_account_to_tally_group accWeird = "Miscellaneous" ∧
    classify_pl_account_to_tally_group accWeird = "Miscellaneous Expenses" :=
  ⟨by decide, by decide, by decide, by decide,
   (C9_amended_theorem accWeird).1 (by decide),
   (C9_amended_theorem accWeird).2.1 (by decide),
   (C9_amended_theorem accWeird).2.2 (by decide) (by decide)⟩

/-! ### C3 counterexample, C4 counterexample, C5 counterexample, C6, C7 counterexample -/

/-- C3 counterexample: in the horizontal variant the two Total lines carry
each side's own total, not the maximum of the two sides. On `ledgerBS`
(liabilities side 100, assets side 60) the asset-side Total line reads 60
while the maximum of the two side totals is 100. -/
theorem C3_counterexample :
    (((prepare_horizontal_report_lines ledgerBS 0 0).2.getLast?).map
      (fun l => (l.name, l.amount, l.is_total))) = some ("Total", 60, true) ∧
    max (bsLiabTotal (get_closing_balances ledgerBS 0) (get_period_profit_loss ledgerBS 0 0))
      (bsAssetTotal (get_closing_balances ledgerBS 0)) = 100 ∧
    (60 : Rat) ≠ 100 :=
  ⟨by with_unfolding_all decide, by with_unfolding_all decide, by with_unfolding_all decide⟩

/-- C4 counterexample: a liability account with a debit (unnatural) balance
is silently rendered as its absolute value. `ledgerLiabDebit` gives the
current-liability account a +100 (debit) balance and `ledgerLiabCredit` gives
it a −100 (credit, natural) balance, yet the two vertical Balance Sheet
reports are identical line for line — the anomaly leaves no signed amount and
no flag anywhere in the output. -/
theorem C4_counterexample :
    get_closing_balances ledgerLiabDebit 0 = [(accWages, 100)] ∧
    get_closing_balances ledgerLiabCredit 0 = [(accWages, -100)] ∧
    accWages.account_type = "liability_current" ∧
    prepare_vertical_report_lines ledgerLiabDebit 0 0 =
      prepare_vertical_report_lines ledgerLiabCredit 0 0 :=
  ⟨by with_unfolding_all decide, by with_unfolding_all decide, rfl,
   by with_unfolding_all decide⟩

/-- C5 counterexample: a Balance Sheet group header does not carry the sum of
its member account lines. On `ledgerMixed` (current liabilities: credit 100
and debit 30) the member lines read 100 and 30 but the group header reads
70 = |100 − 30|, not 130. -/
theorem C5_counterexample :
    ((prepare_vertical_report_lines ledgerMixed 0 0).map
      (fun l => (l.name, l.amount, l.is_group))) =
      [("Capital Account", 0, true), ("Current Liabilities", 70, true),
       ("  accrued rent", 100, false), ("  accrued wages", 30, false),
       ("Total", 70, false)] ∧
    (70 : Rat) ≠ 100 + 30 :=
  ⟨by with_unfolding_all decide, by with_unfolding_all decide⟩

/-- C6: the horizontal Balance Sheet performs no padding at all. On
`ledgerBS3` the liabilities list has 3 lines and the assets list 5; no blank
spacer line exists in either list, and the renderer (which writes element `i`
of each list at worksheet row `5 + i`) puts the two Total lines at rows 7
and 9 — different rows, contradicting the padding/alignment requirement. -/
theorem C6_theorem :
    (prepare_horizontal_report_lines ledgerBS3 0 0).1.length = 3 ∧
    (prepare_horizontal_report_lines ledgerBS3 0 0).2.length = 5 ∧
    excelTotalRow (prepare_horizontal_report_lines ledgerBS3 0 0).1 = 7 ∧
    excelTotalRow (prepare_horizontal_report_lines ledgerBS3 0 0).2 = 9 ∧
    ((prepare_horizontal_report_lines ledgerBS3 0 0).1 ++
      (prepare_horizontal_report_lines ledgerBS3 0 0).2).all
        (fun l => !(l.name == "")) = true :=
  ⟨by with_unfolding_all decide, by with_unfolding_all decide,
   by with_unfolding_all decide, by with_unfolding_all decide,
   by with_unfolding_all decide⟩

/-- C7 counterexample: an account whose balance has absolute value exactly
0.01 (so at least 0.01) is nevertheless excluded. In `ledgerPennyResidual`
the receivable's outstanding residuals are 5 and −4.99, totalling 0.01; the
strict `> 0.01` guard drops the account from the balance set, so the whole
trial balance degenerates to the placeholder line. -/
theorem C7_counterexample :
    recPayOutstanding ledgerPennyResidual.lines accDues.id 0 = threshold ∧
    threshold ≤ |recPayOutstanding ledgerPennyResidual.lines accDues.id 0| ∧
    get_account_balances ledgerPennyResidual 0 = [] ∧
    tb_prepare_report_lines ledgerPennyResidual 0 = [tbNoTransactionsLine] :=
  ⟨by with_unfolding_all decide, by with_unfolding_all decide,
   by with_unfolding_all decide, by with_unfolding_all decide⟩

/-! ### Shared membership lemmas -/

lemma memberSubset {f : Account × Rat → Bool} {bals : List (Account × Rat)}
    {p : Account × Rat} (h : p ∈ (sortMembers (bals.filter f)).filter materialPair) :
    p ∈ bals := by
  have h1 := (List.mem_filter.mp h).1
  unfold sortMembers at h1
  have h2 := (List.mem_insertionSort acctPairLe).mp h1
  exact (List.mem_filter.mp h2).1

lemma memberMaterial {f : Account × Rat → Bool} {bals : List (Account × Rat)}
    {p : Account × Rat} (h : p ∈ (sortMembers (bals.filter f)).filter materialPair) :
    ¬(|p.2| < threshold) := by
  have h2 := (List.mem_filter.mp h).2
  simpa [materialPair] using h2

/-! ### C8 -/

/-- C8: an empty balance set never raises (all three assemblers are total
functions) and degrades to the documented placeholder output: one explanatory
line with zero amounts and unset flags for the Trial Balance and the Profit &
Loss, and the minimal Capital-Account/net-result/Total report for the Balance
Sheet. -/
theorem C8_theorem (led : Ledger) (dateTo dateFrom fiscalYearStart : Int) :
    (get_account_balances led dateTo = [] →
      tb_prepare_report_lines led dateTo = [tbNoTransactionsLine]) ∧
    (get_period_balances led dateFrom dateTo = [] →
      pl_prepare_report_lines led dateFrom dateTo = [plNoTransactionsLine]) ∧
    (get_closing_balances led dateTo = [] →
      prepare_vertical_report_lines led dateTo fiscalYearStart =
        bsMinimalLines (get_period_profit_loss led fiscalYearStart dateTo)) := by
  refine ⟨fun h => ?_, fun h => ?_, fun h => ?_⟩
  · simp [tb_prepare_report_lines, h]
  · simp [pl_prepare_report_lines, h]
  · simp [prepare_vertical_report_lines, h]

/-- C8 witnessed on the empty ledger: all three balance sets are empty and
each report degrades exactly as stated. -/
theorem C8_witness :
    get_account_balances ledgerEmpty 0 = [] ∧
    get_period_balances ledgerEmpty 0 0 = [] ∧
    get_closing_balances ledgerEmpty 0 = [] ∧
    tb_prepare_report_lines ledgerEmpty 0 = [tbNoTransactionsLine] ∧
    pl_prepare_report_lines ledgerEmpty 0 0 = [plNoTransactionsLine] ∧
    prepare_vertical_report_lines ledgerEmpty 0 0 =
      bsMinimalLines (get_period_profit_loss ledgerEmpty 0 0) :=
  ⟨rfl, rfl, rfl,
   (C8_theorem ledgerEmpty 0 0 0).1 rfl,
   (C8_theorem ledgerEmpty 0 0 0).2.1 rfl,
   (C8_theorem ledgerEmpty 0 0 0).2.2 rfl⟩

/-! ### C2 -/

lemma period_pl_split (lines : List MoveLine) (dateFrom dateTo : Int) :
    ∀ accs : List Account,
      ((accs.map (fun a =>
          let ls := periodLines lines a.id dateFrom dateTo
          if ls.isEmpty || !income_types.contains a.account_type then 0
          else sumCredit ls - sumDebit ls)).sum -
       (accs.map (fun a =>
          let ls := periodLines lines a.id dateFrom dateTo
          if ls.isEmpty || income_types.contains a.account_type then 0
          else sumDebit ls - sumCredit ls)).sum) =
      ((accs.filterMap (fun a =>
          let ls := periodLines lines a.id dateFrom dateTo
          if ls.isEmpty then none
          else if income_types.contains a.account_type then
            some (a, sumCredit ls - sumDebit ls)
          else some (a, sumDebit ls - sumCredit ls))).map
        (fun p => if income_types.contains p.1.account_type then p.2 else -p.2)).sum := by
  intro accs
  induction accs with
  | nil => simp
  | cons a as ih =>
    simp only [List.map_cons, List.sum_cons, List.filterMap_cons]
    by_cases he : (periodLines lines a.id dateFrom dateTo).isEmpty
    · simp only [he, Bool.true_or, if_true]
      rw [← ih]
      ring
    · by_cases hi : income_types.contains a.account_type
      · simp only [he, hi, Bool.false_or, Bool.not_true, Bool.false_eq_true, if_false,
          Bool.true_eq_false, if_true, List.map_cons, List.sum_cons]
        rw [← ih]
        ring
      · simp only [he, hi, Bool.false_or, Bool.not_false, Bool.false_eq_true, if_false,
          if_true, List.map_cons, List.sum_cons]
        rw [← ih]
        ring

/-- C2: the period result uses credit−debit for income-type accounts and
debit−credit for expense-type accounts (both in the P&L balance map and in
the Balance Sheet's period profit/loss figure, which equals total income
minus total expense over that map), and the report's trailing net-result line
reads "Net Profit" carrying the net result when it is non-negative and
"Net Loss" carrying its absolute value when it is negative. -/
theorem C2_theorem (led : Ledger) (dateFrom dateTo : Int) :
    (∀ p ∈ get_period_balances led dateFrom dateTo,
      p.2 = if income_types.contains p.1.account_type
        then sumCredit (periodLines led.lines p.1.id dateFrom dateTo) -
             sumDebit (periodLines led.lines p.1.id dateFrom dateTo)
        else sumDebit (periodLines led.lines p.1.id dateFrom dateTo) -
             sumCredit (periodLines led.lines p.1.id dateFrom dateTo)) ∧
    get_period_profit_loss led dateFrom dateTo =
      ((get_period_balances led dateFrom dateTo).map
        (fun p => if income_types.contains p.1.account_type then p.2 else -p.2)).sum ∧
    (get_period_balances led dateFrom dateTo ≠ [] →
      ∃ l, (pl_prepare_report_lines led dateFrom dateTo).getLast? = some l ∧
        l.is_net_result = true ∧
        ((0 ≤ pl_net_result (get_period_balances led dateFrom dateTo) ∧
          l.name = "Net Profit" ∧
          l.amount = pl_net_result (get_period_balances led dateFrom dateTo)) ∨
         (pl_net_result (get_period_balances led dateFrom dateTo) < 0 ∧
          l.name = "Net Loss" ∧
          l.amount = |pl_net_result (get_period_balances led dateFrom dateTo)|))) := by
  refine ⟨fun p hp => ?_, ?_, fun hne => ?_⟩
  · unfold get_period_balances at hp
    obtain ⟨a, _, hfa⟩ := List.mem_filterMap.mp hp
    by_cases he : (periodLines led.lines a.id dateFrom dateTo).isEmpty
    · simp [he] at hfa
    · by_cases hi : income_types.contains a.account_type
      · simp only [he, hi, Bool.false_eq_true, if_false, if_true,
          Option.some.injEq] at hfa
        subst hfa
        rw [if_pos hi]
      · simp only [he, hi, Bool.false_eq_true, if_false, Option.some.injEq] at hfa
        subst hfa
        rw [if_neg hi]
  · unfold get_period_profit_loss get_period_balances
    exact period_pl_split led.lines dateFrom dateTo _
  · have hb : ((get_period_balances led dateFrom dateTo).isEmpty) = false := by
      rcases h : (get_period_balances led dateFrom dateTo).isEmpty with _ | _
      · rfl
      · exact absurd (List.isEmpty_iff.mp h) hne
    simp only [pl_prepare_report_lines, plAssignSeq, hb, Bool.false_eq_true, if_false]
    rw [bumpSeq_concat_getLast plSetSeq]
    refine ⟨_, rfl, ?_, ?_⟩
    · unfold plNetLine
      split <;> rfl
    · rcases le_or_lt 0 (pl_net_result (get_period_balances led dateFrom dateTo)) with h | h
      · left
        refine ⟨h, ?_, ?_⟩ <;> simp [plNetLine, h]
      · right
        refine ⟨h, ?_, ?_⟩ <;> simp [plNetLine, h, not_le.mpr h]

/-- C2 witnessed on `ledgerPL` (sales credit 100, purchases debit 40): the
income account's stored balance obeys the credit−debit convention, the
balance set is non-empty, and the report ends in the described net-result
line (here a Net Profit of 100 − 40 = 60). -/
theorem C2_witness :
    (accSales, (100 : Rat)) ∈ get_period_balances ledgerPL 0 0 ∧
    ((100 : Rat) = if income_types.contains accSales.account_type
      then sumCredit (periodLines ledgerPL.lines accSales.id 0 0) -
           sumDebit (periodLines ledgerPL.lines accSales.id 0 0)
      else sumDebit (periodLines ledgerPL.lines accSales.id 0 0) -
           sumCredit (periodLines ledgerPL.lines accSales.id 0 0)) ∧
    get_period_balances ledgerPL 0 0 ≠ [] ∧
    (∃ l, (pl_prepare_report_lines ledgerPL 0 0).getLast? = some l ∧
      l.is_net_result = true ∧
      ((0 ≤ pl_net_result (get_period_balances ledgerPL 0 0) ∧
        l.name = "Net Profit" ∧
        l.amount = pl_net_result (get_period_balances ledgerPL 0 0)) ∨
       (pl_net_result (get_period_balances ledgerPL 0 0) < 0 ∧
        l.name = "Net Loss" ∧
        l.amount = |pl_net_result (get_period_balances ledgerPL 0 0)|))) :=
  ⟨by with_unfolding_all decide,
   (C2_theorem ledgerPL 0 0).1 (accSales, 100) (by with_unfolding_all decide),
   by with_unfolding_all decide,
   (C2_theorem ledgerPL 0 0).2.2 (by with_unfolding_all decide)⟩

/-! ### C10 -/

/-- C10: every account-level (level 1) line of a Trial Balance report comes
from a balance-map entry and carries `debit = balance if balance > 0 else 0`
and `credit = abs(balance) if balance < 0 else 0`; consequently both fields
are non-negative and at most one of them is nonzero. -/
theorem C10_theorem (led : Ledger) (dateTo : Int) (l : TBLine)
    (hmem : l ∈ tb_prepare_report_lines led dateTo) (hlvl : l.level = 1) :
    ∃ p ∈ get_account_balances led dateTo,
      l.name = "  " ++ p.1.name ∧
      l.debit = (if 0 < p.2 then p.2 else 0) ∧
      l.credit = (if p.2 < 0 then |p.2| else 0) ∧
      0 ≤ l.debit ∧ 0 ≤ l.credit ∧ (l.debit = 0 ∨ l.credit = 0) := by
  simp only [tb_prepare_report_lines] at hmem
  split at hmem
  · simp only [List.mem_singleton] at hmem
    subst hmem
    simp [tbNoTransactionsLine] at hlvl
  · unfold tbAssignSeq at hmem
    obtain ⟨l0, hl0, n, rfl⟩ := mem_bumpSeq tbSetSeq hmem
    rcases List.mem_append.mp hl0 with h | h
    · obtain ⟨g, _, hblock⟩ := List.mem_flatMap.mp h
      simp only [tbGroupBlock] at hblock
      split at hblock
      · simp at hblock
      · rcases List.mem_cons.mp hblock with rfl | hmem2
        · simp [tbSetSeq] at hlvl
        · obtain ⟨p, hp, rfl⟩ := List.mem_map.mp hmem2
          refine ⟨p, memberSubset hp, ?_, ?_, ?_, ?_, ?_, ?_⟩
          · rfl
          · rfl
          · rfl
          · show (0 : Rat) ≤ tbDebitOf p.2
            unfold tbDebitOf
            split
            next hc => exact le_of_lt hc
            next => exact le_refl 0
          · show (0 : Rat) ≤ tbCreditOf p.2
            unfold tbCreditOf
            split
            · exact abs_nonneg _
            · exact le_refl 0
          · show tbDebitOf p.2 = 0 ∨ tbCreditOf p.2 = 0
            unfold tbDebitOf tbCreditOf
            rcases lt_trichotomy p.2 0 with hc | hc | hc
            · exact Or.inl (if_neg (by exact not_lt_of_gt hc))
            · exact Or.inl (by rw [hc]; simp)
            · exact Or.inr (if_neg (by exact not_lt_of_gt hc))
    · simp only [List.mem_singleton] at h
      subst h
      simp [tbSetSeq, tbTotalLine] at hlvl

/-- C10 witnessed on `ledgerPL`: the "  sales" account line (balance −100)
sits at level 1 in the report with debit 0 and credit 100. -/
theorem C10_witness :
    (⟨20, 1, "  sales", 0, 100, false, false⟩ : TBLine) ∈
      tb_prepare_report_lines ledgerPL 0 ∧
    ∃ p ∈ get_account_balances ledgerPL 0,
      ("  sales" : String) = "  " ++ p.1.name ∧
      (0 : Rat) = (if 0 < p.2 then p.2 else 0) ∧
      (100 : Rat) = (if p.2 < 0 then |p.2| else 0) ∧
      (0 : Rat) ≤ 0 ∧ (0 : Rat) ≤ 100 ∧ ((0 : Rat) = 0 ∨ (100 : Rat) = 0) :=
  ⟨by with_unfolding_all decide,
   C10_theorem ledgerPL 0 ⟨20, 1, "  sales", 0, 100, false, false⟩
     (by with_unfolding_all decide) rfl⟩

/-! ### C7 amended -/

lemma accountBalanceEntry_bound {lines : List MoveLine} {dateTo : Int} {a : Account}
    {p : Account × Rat} (h : accountBalanceEntry lines dateTo a = some p) :
    p.1 = a ∧ threshold ≤ |p.2| ∧
      (rec_pay_types.contains a.account_type = true → threshold < |p.2|) := by
  simp only [accountBalanceEntry] at h
  by_cases hc : rec_pay_types.contains a.account_type = true
  · rw [if_pos hc] at h
    by_cases hlt : threshold < |recPayOutstanding lines a.id dateTo|
    · rw [if_pos hlt] at h
      simp only [Option.some.injEq] at h
      subst h
      exact ⟨rfl, le_of_lt hlt, fun _ => hlt⟩
    · rw [if_neg hlt] at h
      exact absurd h (by simp)
  · rw [if_neg hc] at h
    by_cases hle : threshold ≤
        |sumDebit (postedUpTo lines a.id dateTo) - sumCredit (postedUpTo lines a.id dateTo)|
    · rw [if_pos hle] at h
      simp only [Option.some.injEq] at h
      subst h
      exact ⟨rfl, hle, fun hcc => absurd hcc hc⟩
    · rw [if_neg hle] at h
      exact absurd h (by simp)

/-- C7 amended: the first half of the claim holds — an account whose balance
has absolute value below 0.01 never enters a balance map and never survives
the member filter of any of the three reports' group loops, so it contributes
neither a rendered line nor anything to a subtotal. The inclusion boundary,
however, is not uniform: every stored balance satisfies `0.01 ≤ |balance|`,
but for receivable/payable accounts the guard is strict (`0.01 < |balance|`),
so a receivable/payable whose outstanding balance is exactly 0.01 is
excluded even though its absolute value is at least 0.01. -/
theorem C7_amended_theorem (led : Ledger) (dateTo : Int)
    (bals : List (Account × Rat)) (g : String) :
    (∀ p ∈ get_account_balances led dateTo,
      threshold ≤ |p.2| ∧
        (rec_pay_types.contains p.1.account_type = true → threshold < |p.2|)) ∧
    (∀ p ∈ get_closing_balances led dateTo,
      threshold ≤ |p.2| ∧
        (rec_pay_types.contains p.1.account_type = true → threshold < |p.2|)) ∧
    (∀ p ∈ tbGroupMembers bals g, ¬(|p.2| < threshold)) ∧
    (∀ p ∈ plGroupMembers bals g, ¬(|p.2| < threshold)) ∧
    (∀ p ∈ bsGroupMembers bals g, ¬(|p.2| < threshold)) := by
  refine ⟨fun p hp => ?_, fun p hp => ?_, fun p hp => memberMaterial hp,
    fun p hp => memberMaterial hp, fun p hp => memberMaterial hp⟩
  · simp only [get_account_balances] at hp
    rcases List.mem_append.mp hp with h | h <;>
    · obtain ⟨a, _, hfa⟩ := List.mem_filterMap.mp h
      obtain ⟨h1, h2, h3⟩ := accountBalanceEntry_bound hfa
      exact ⟨h2, by rw [h1]; exact h3⟩
  · simp only [get_closing_balances] at hp
    rcases List.mem_append.mp hp with h | h <;>
    · obtain ⟨a, _, hfa⟩ := List.mem_filterMap.mp h
      obtain ⟨h1, h2, h3⟩ := accountBalanceEntry_bound hfa
      exact ⟨h2, by rw [h1]; exact h3⟩

/-- C7 amended, witnessed on `ledgerPL`: the stored sales balance −100 passes
both bounds, and the corresponding member pair survives the material filter
of the trial-balance group loop. -/
theorem C7_amended_witness :
    (accSales, (-100 : Rat)) ∈ get_account_balances ledgerPL 0 ∧
    (threshold ≤ |(-100 : Rat)| ∧
      (rec_pay_types.contains accSales.account_type = true →
        threshold < |(-100 : Rat)|)) ∧
    (accSales, (-100 : Rat)) ∈
      tbGroupMembers (get_account_balances ledgerPL 0) "Sales Accounts" ∧
    ¬(|(-100 : Rat)| < threshold) :=
  ⟨by with_unfolding_all decide,
   (C7_amended_theorem ledgerPL 0 [] "").1 (accSales, -100) (by with_unfolding_all decide),
   by with_unfolding_all decide,
   (C7_amended_theorem ledgerPL 0 (get_account_balances ledgerPL 0) "Sales Accounts").2.2.1
     (accSales, -100) (by with_unfolding_all decide)⟩

/-! ### C4 amended -/

lemma bsLiabGroupBlock_line_nonneg {bals : List (Account × Rat)} {npl : Rat} {g : String}
    {l : BSLine} (h : l ∈ (bsLiabGroupBlock bals npl g).1) : 0 ≤ l.amount := by
  simp only [bsLiabGroupBlock] at h
  split at h
  · rcases List.mem_append.mp h with h1 | h1
    · rcases List.mem_cons.mp h1 with rfl | h2
      · exact abs_nonneg _
      · obtain ⟨p, _, rfl⟩ := List.mem_map.mp h2
        exact abs_nonneg _
    · split at h1
      · simp only [List.mem_singleton] at h1
        subst h1
        exact abs_nonneg _
      · simp at h1
  · split at h
    · simp at h
    · rcases List.mem_cons.mp h with rfl | h2
      · exact abs_nonneg _
      · obtain ⟨p, _, rfl⟩ := List.mem_map.mp h2
        exact abs_nonneg _

lemma bsAssetGroupBlock_line_nonneg {bals : List (Account × Rat)} {g : String}
    {l : BSLine} (h : l ∈ (bsAssetGroupBlock bals g).1) : 0 ≤ l.amount := by
  simp only [bsAssetGroupBlock] at h
  split at h
  · simp at h
  · rcases List.mem_cons.mp h with rfl | h2
    · exact abs_nonneg _
    · obtain ⟨p, _, rfl⟩ := List.mem_map.mp h2
      exact abs_nonneg _

lemma bsLiabGroupBlock_total_nonneg (bals : List (Account × Rat)) (npl : Rat) (g : String) :
    0 ≤ (bsLiabGroupBlock bals npl g).2 := by
  simp only [bsLiabGroupBlock]
  split
  · exact abs_nonneg _
  · split
    · exact le_refl 0
    · exact abs_nonneg _

lemma bsAssetGroupBlock_total_nonneg (bals : List (Account × Rat)) (g : String) :
    0 ≤ (bsAssetGroupBlock bals g).2 := by
  simp only [bsAssetGroupBlock]
  split
  · exact le_refl 0
  · exact abs_nonneg _

lemma bsLiabTotal_nonneg (bals : List (Account × Rat)) (npl : Rat) :
    0 ≤ bsLiabTotal bals npl := by
  refine List.sum_nonneg fun x hx => ?_
  obtain ⟨g, _, rfl⟩ := List.mem_map.mp hx
  exact bsLiabGroupBlock_total_nonneg bals npl g

lemma bsAssetTotal_nonneg (bals : List (Account × Rat)) :
    0 ≤ bsAssetTotal bals := by
  refine List.sum_nonneg fun x hx => ?_
  obtain ⟨g, _, rfl⟩ := List.mem_map.mp hx
  exact bsAssetGroupBlock_total_nonneg bals g

lemma bsMinimalLines_nonneg {npl : Rat} {l : BSLine} (h : l ∈ bsMinimalLines npl) :
    0 ≤ l.amount := by
  simp only [bsMinimalLines, List.mem_cons, List.mem_singleton] at h
  rcases h with rfl | rfl | rfl | h
  · exact abs_nonneg _
  · exact abs_nonneg _
  · exact abs_nonneg _
  · simp at h

/-- C4 amended: a balance opposite its natural sign is NOT rendered as a
signed or flagged amount. Every line of every Balance Sheet output (vertical
list and both horizontal side lists) carries a non-negative amount: account
lines always show `abs(balance)` and carry no anomaly flag, so the only trace
of an unnatural balance is that it is subtracted inside its group's
subtotal. -/
theorem C4_amended_theorem (led : Ledger) (dateTo fiscalYearStart : Int) :
    (∀ l ∈ prepare_vertical_report_lines led dateTo fiscalYearStart, 0 ≤ l.amount) ∧
    (∀ l ∈ (prepare_horizontal_report_lines led dateTo fiscalYearStart).1, 0 ≤ l.amount) ∧
    (∀ l ∈ (prepare_horizontal_report_lines led dateTo fiscalYearStart).2, 0 ≤ l.amount) := by
  refine ⟨fun l hl => ?_, fun l hl => ?_, fun l hl => ?_⟩
  · simp only [prepare_vertical_report_lines] at hl
    split at hl
    · exact bsMinimalLines_nonneg hl
    · unfold bsAssignSeq at hl
      obtain ⟨l0, hl0, n, rfl⟩ := mem_bumpSeq bsSetSeq hl
      rcases List.mem_append.mp hl0 with h | h
      · rcases List.mem_append.mp h with h1 | h1
        · obtain ⟨g, _, hb⟩ := List.mem_flatMap.mp h1
          simpa using bsLiabGroupBlock_line_nonneg hb
        · obtain ⟨g, _, hb⟩ := List.mem_flatMap.mp h1
          simpa using bsAssetGroupBlock_line_nonneg hb
      · simp only [List.mem_singleton] at h
        subst h
        show (0 : Rat) ≤ max _ _
        exact le_max_of_le_left (bsLiabTotal_nonneg _ _)
  · simp only [prepare_horizontal_report_lines] at hl
    split at hl
    · exact bsMinimalLines_nonneg hl
    · unfold bsAssignSeq at hl
      obtain ⟨l0, hl0, n, rfl⟩ := mem_bumpSeq bsSetSeq hl
      rcases List.mem_append.mp hl0 with h | h
      · obtain ⟨g, _, hb⟩ := List.mem_flatMap.mp h
        simpa using bsLiabGroupBlock_line_nonneg hb
      · simp only [List.mem_singleton] at h
        subst h
        exact bsLiabTotal_nonneg _ _
  · simp only [prepare_horizontal_report_lines] at hl
    split at hl
    · simp only [List.mem_singleton] at hl
      subst hl
      exact abs_nonneg _
    · unfold bsAssignSeq at hl
      obtain ⟨l0, hl0, n, rfl⟩ := mem_bumpSeq bsSetSeq hl
      rcases List.mem_append.mp hl0 with h | h
      · obtain ⟨g, _, hb⟩ := List.mem_flatMap.mp h
        simpa using bsAssetGroupBlock_line_nonneg hb
      · simp only [List.mem_singleton] at h
        subst h
        exact bsAssetTotal_nonneg _

/-- C4 amended, witnessed on `ledgerLiabDebit` (liability with a +100 debit
balance): its rendered account line is the unsigned `abs` form, amount 100,
and the theorem instance confirms non-negativity. -/
theorem C4_amended_witness :
    (⟨30, 1, "  accrued wages", "2002", 100, false, false⟩ : BSLine) ∈
      prepare_vertical_report_lines ledgerLiabDebit 0 0 ∧
    (0 : Rat) ≤ 100 :=
  ⟨by with_unfolding_all decide,
   (C4_amended_theorem ledgerLiabDebit 0 0).1
     ⟨30, 1, "  accrued wages", "2002", 100, false, false⟩
     (by with_unfolding_all decide)⟩

/-! ### C3 amended -/

/-- C3 amended: only the vertical Balance Sheet writes
`max(total_liabilities, total_assets)` on its single Total line; the
horizontal variant ends each side list with a Total line carrying that side's
own total. -/
theorem C3_amended_theorem (led : Ledger) (dateTo fiscalYearStart : Int)
    (hne : get_closing_balances led dateTo ≠ []) :
    ((prepare_vertical_report_lines led dateTo fiscalYearStart).getLast?).map
        (fun l => (l.name, l.amount, l.is_total)) =
      some ("Total",
        max (bsLiabTotal (get_closing_balances led dateTo)
              (get_period_profit_loss led fiscalYearStart dateTo))
            (bsAssetTotal (get_closing_balances led dateTo)), true) ∧
    ((prepare_horizontal_report_lines led dateTo fiscalYearStart).1.getLast?).map
        (fun l => (l.name, l.amount, l.is_total)) =
      some ("Total",
        bsLiabTotal (get_closing_balances led dateTo)
          (get_period_profit_loss led fiscalYearStart dateTo), true) ∧
    ((prepare_horizontal_report_lines led dateTo fiscalYearStart).2.getLast?).map
        (fun l => (l.name, l.amount, l.is_total)) =
      some ("Total", bsAssetTotal (get_closing_balances led dateTo), true) := by
  have hb : ((get_closing_balances led dateTo).isEmpty) = false := by
    rcases h : (get_closing_balances led dateTo).isEmpty with _ | _
    · rfl
    · exact absurd (List.isEmpty_iff.mp h) hne
  refine ⟨?_, ?_, ?_⟩
  · simp only [prepare_vertical_report_lines, bsAssignSeq, hb, Bool.false_eq_true, if_false]
    rw [bumpSeq_concat_getLast bsSetSeq]
    rfl
  · simp only [prepare_horizontal_report_lines, bsAssignSeq, hb, Bool.false_eq_true, if_false]
    rw [bumpSeq_concat_getLast bsSetSeq]
    rfl
  · simp only [prepare_horizontal_report_lines, bsAssignSeq, hb, Bool.false_eq_true, if_false]
    rw [bumpSeq_concat_getLast bsSetSeq]
    rfl

/-- C3 amended, witnessed on `ledgerBS` (sides 100 and 60): the vertical
Total line reads max = 100, the horizontal Total lines read 100 and 60. -/
theorem C3_amended_witness :
    get_closing_balances ledgerBS 0 ≠ [] ∧
    ((prepare_vertical_report_lines ledgerBS 0 0).getLast?).map
        (fun l => (l.name, l.amount, l.is_total)) =
      some ("Total",
        max (bsLiabTotal (get_closing_balances ledgerBS 0)
              (get_period_profit_loss ledgerBS 0 0))
            (bsAssetTotal (get_closing_balances ledgerBS 0)), true) ∧
    ((prepare_horizontal_report_lines ledgerBS 0 0).1.getLast?).map
        (fun l => (l.name, l.amount, l.is_total)) =
      some ("Total",
        bsLiabTotal (get_closing_balances ledgerBS 0)
          (get_period_profit_loss ledgerBS 0 0), true) ∧
    ((prepare_horizontal_report_lines ledgerBS 0 0).2.getLast?).map
        (fun l => (l.name, l.amount, l.is_total)) =
      some ("Total", bsAssetTotal (get_closing_balances ledgerBS 0), true) :=
  ⟨by with_unfolding_all decide, C3_amended_theorem ledgerBS 0 0 (by with_unfolding_all decide)⟩

/-! ### C5 amended -/

lemma sorted_members {f : Account × Rat → Bool} (bals : List (Account × Rat)) :
    List.Sorted acctPairLe ((sortMembers (bals.filter f)).filter materialPair) :=
  List.Pairwise.filter materialPair
    (List.sorted_insertionSort acctPairLe (bals.filter f))

/-- C5 amended: member account lines are emitted immediately after their
group header in ascending `(code, name)` order in all three reports, and the
Trial Balance and Profit & Loss headers carry exactly the sums of the member
lines that follow; the Balance Sheet header instead carries the absolute
value of the signed member sum (natural-side balances add, opposite-side
balances subtract, via `bsLiabSigned`/`bsAssetSigned`), which differs from
the sum of the displayed member amounts when a member has an unnatural sign
(the Capital Account group additionally folds in the period profit/loss). -/
theorem C5_amended_theorem (bals : List (Account × Rat)) (g : String) (npl : Rat) :
    List.Sorted acctPairLe (tbGroupMembers bals g) ∧
    List.Sorted acctPairLe (plGroupMembers bals g) ∧
    List.Sorted acctPairLe (bsGroupMembers bals g) ∧
    (tbGroupBlock bals g ≠ [] → tbGroupBlock bals g =
      { sequence := 0, level := 0, name := g,
        debit := (((tbGroupMembers bals g).map tbAccountLine).map TBLine.debit).sum,
        credit := (((tbGroupMembers bals g).map tbAccountLine).map TBLine.credit).sum,
        is_group := true, is_total := false } ::
        (tbGroupMembers bals g).map tbAccountLine) ∧
    (plGroupBlock bals g ≠ [] → plGroupBlock bals g =
      { sequence := 0, level := 0, name := g, code := "",
        amount := (((plGroupMembers bals g).map plAccountLine).map PLLine.amount).sum,
        is_group := true, is_total := false, is_net_result := false } ::
        (plGroupMembers bals g).map plAccountLine) ∧
    (g ≠ "Capital Account" → (bsLiabGroupBlock bals npl g).1 ≠ [] →
      (bsLiabGroupBlock bals npl g).1 =
        bsGroupHeader g (|((bsGroupMembers bals g).map (fun p => bsLiabSigned p.2)).sum|) ::
          (bsGroupMembers bals g).map bsAccountLine) ∧
    ((bsAssetGroupBlock bals g).1 ≠ [] →
      (bsAssetGroupBlock bals g).1 =
        bsGroupHeader g (|((bsGroupMembers bals g).map (fun p => bsAssetSigned p.2)).sum|) ::
          (bsGroupMembers bals g).map bsAccountLine) := by
  refine ⟨sorted_members bals, sorted_members bals, sorted_members bals,
    fun hne => ?_, fun hne => ?_, fun hg hne => ?_, fun hne => ?_⟩
  · simp only [tbGroupBlock] at hne ⊢
    by_cases hm : (tbGroupMembers bals g).isEmpty
    · rw [if_pos hm] at hne
      exact absurd rfl hne
    · rw [if_neg hm]
      rw [List.map_map, List.map_map]
      rfl
  · simp only [plGroupBlock] at hne ⊢
    by_cases hm : (plGroupMembers bals g).isEmpty
    · rw [if_pos hm] at hne
      exact absurd rfl hne
    · rw [if_neg hm]
      rw [List.map_map]
      rfl
  · have hg' : (g == "Capital Account") = false := by simp [hg]
    simp only [bsLiabGroupBlock, hg', Bool.false_eq_true, if_false] at hne ⊢
    by_cases hm : ((bsGroupMembers bals g).map bsAccountLine).isEmpty
    · rw [if_pos hm] at hne
      exact absurd rfl hne
    · rw [if_neg hm]
      rfl
  · simp only [bsAssetGroupBlock] at hne ⊢
    by_cases hm : ((bsGroupMembers bals g).map bsAccountLine).isEmpty
    · rw [if_pos hm] at hne
      exact absurd rfl hne
    · rw [if_neg hm]
      rfl

/-- C5 amended, witnessed: the Sales Accounts trial-balance block of
`ledgerPL` is its header (carrying the member sums) followed by its sorted
member lines, and the Current Liabilities balance-sheet block of
`ledgerMixed` is its header (carrying the absolute signed sum) followed by
its member lines. -/
theorem C5_amended_witness :
    List.Sorted acctPairLe
      (tbGroupMembers (get_account_balances ledgerPL 0) "Sales Accounts") ∧
    tbGroupBlock (get_account_balances ledgerPL 0) "Sales Accounts" ≠ [] ∧
    tbGroupBlock (get_account_balances ledgerPL 0) "Sales Accounts" =
      { sequence := 0, level := 0, name := "Sales Accounts",
        debit := (((tbGroupMembers (get_account_balances ledgerPL 0)
          "Sales Accounts").map tbAccountLine).map TBLine.debit).sum,
        credit := (((tbGroupMembers (get_account_balances ledgerPL 0)
          "Sales Accounts").map tbAccountLine).map TBLine.credit).sum,
        is_group := true, is_total := false } ::
        (tbGroupMembers (get_account_balances ledgerPL 0)
          "Sales Accounts").map tbAccountLine ∧
    ("Current Liabilities" : String) ≠ "Capital Account" ∧
    (bsLiabGroupBlock (get_closing_balances ledgerMixed 0) 0 "Current Liabilities").1 ≠ [] ∧
    (bsLiabGroupBlock (get_closing_balances ledgerMixed 0) 0 "Current Liabilities").1 =
      bsGroupHeader "Current Liabilities"
        (|((bsGroupMembers (get_closing_balances ledgerMixed 0)
          "Current Liabilities").map (fun p => bsLiabSigned p.2)).sum|) ::
        (bsGroupMembers (get_closing_balances ledgerMixed 0)
          "Current Liabilities").map bsAccountLine :=
  ⟨(C5_amended_theorem (get_account_balances ledgerPL 0) "Sales Accounts" 0).1,
   by with_unfolding_all decide,
   (C5_amended_theorem (get_account_balances ledgerPL 0) "Sales Accounts" 0).2.2.2.1
     (by with_unfolding_all decide),
   by decide,
   by with_unfolding_all decide,
   (C5_amended_theorem (get_closing_balances ledgerMixed 0) "Current Liabilities" 0).2.2.2.2.2.1
     (by decide) (by with_unfolding_all decide)⟩
